import Mathlib

/-!
Verification development for the sofia-multiplataforma repository
(src/app.py, src/celery_worker.py, src/main.py).

The Python sources are shallowly embedded as executable Lean definitions.
Conventions used throughout:

* Python strings are modelled as Lean `String` (a list of Unicode code
  points, matching Python `len`/slicing semantics on code points).
* Python byte strings are modelled as `List Nat`.
* JSON values (the payloads handed to the webhook extractors) are an
  inductive type `JSON`; JSON numbers are modelled as `Int` (no claim
  depends on non-integral numbers).
* Fallible Python code is modelled with `Except PyExc` where `PyExc`
  enumerates the exception classes that the embedded code can raise or
  catch (`KeyError`, `IndexError`, `TypeError`, `AttributeError`).
* Library calls whose values no claim depends on (hashlib.md5 hexdigest,
  hmac-SHA256 hexdigest) are taken as function parameters.
* Logging and wall-clock timestamps are not modelled.
-/

/-- JSON values, as produced by Flask's `request.get_json()`. -/
inductive JSON where
  | null
  | bool (b : Bool)
  | num (n : Int)
  | str (s : String)
  | arr (items : List JSON)
  | obj (fields : List (String × JSON))

/-- Python exception classes raised by the embedded fragments of
`app.py`.  `extract_whatsapp_message` / `extract_messenger_message`
catch exactly `(KeyError, IndexError, TypeError)`. -/
inductive PyExc where
  | keyError
  | indexError
  | typeError
  | attributeError
deriving DecidableEq

/-- First binding of a key in a JSON object (Python dict lookup; keys of
a parsed JSON object are unique). -/
def lookupField : List (String × JSON) → String → Option JSON
  | [], _ => none
  | (k, v) :: rest, key => if k = key then some v else lookupField rest key

/-- Python `key in dict`. -/
def containsField (fields : List (String × JSON)) (k : String) : Bool :=
  (lookupField fields k).isSome

/-- Python truthiness of a JSON value (`if not data: ...`). -/
def truthy : JSON → Bool
  | .null => false
  | .bool b => b
  | .num n => !(n == 0)
  | .str s => !(s == "")
  | .arr items => !items.isEmpty
  | .obj fields => !fields.isEmpty

/-- `d.get(k)`: `None` when the key is absent; only dicts have `.get`,
any other value raises `AttributeError` (which the extractors' except
clause does NOT list). -/
def pyGetAttr (j : JSON) (k : String) : Except PyExc JSON :=
  match j with
  | .obj fields => .ok ((lookupField fields k).getD .null)
  | _ => .error .attributeError

/-- `d.get(k, deflt)`. -/
def pyGetAttrD (j : JSON) (k : String) (deflt : JSON) : Except PyExc JSON :=
  match j with
  | .obj fields => .ok ((lookupField fields k).getD deflt)
  | _ => .error .attributeError

/-- `j[k]` with a string key: `KeyError` on a dict without the key,
`TypeError` on lists, strings and scalars ("indices must be integers"). -/
def pySubKey (j : JSON) (k : String) : Except PyExc JSON :=
  match j with
  | .obj fields =>
    match lookupField fields k with
    | some v => .ok v
    | none => .error .keyError
  | _ => .error .typeError

/-- `j[0]`: first element of a list (or `IndexError`), first character of
a string (or `IndexError`), `KeyError` on a dict (JSON object keys are
strings, so the integer key 0 is absent), `TypeError` on scalars. -/
def pySub0 (j : JSON) : Except PyExc JSON :=
  match j with
  | .arr items =>
    match items with
    | x :: _ => .ok x
    | [] => .error .indexError
  | .str s =>
    match s.data with
    | c :: _ => .ok (.str (String.mk [c]))
    | [] => .error .indexError
  | .obj _ => .error .keyError
  | _ => .error .typeError

/-- Python `a == b` between a JSON value and a string literal: only a
string can compare equal. -/
def jsonEqStr (j : JSON) (s : String) : Bool :=
  match j with
  | .str t => t == s
  | _ => false

/-- `needle` a prefix of `hay` (character lists). -/
def isPrefixChars : List Char → List Char → Bool
  | [], _ => true
  | _ :: _, [] => false
  | c :: cs, d :: ds => c == d && isPrefixChars cs ds

/-- `needle` a contiguous substring of `hay` (Python `sub in str`). -/
def subList (needle : List Char) : List Char → Bool
  | [] => needle.isEmpty
  | c :: rest => isPrefixChars needle (c :: rest) || subList needle rest

/-- Python `needle in j`: key membership on dicts, element equality on
lists (a string never equals a non-string element), substring test on
strings, `TypeError` on scalars ("argument is not iterable"). -/
def pyIn (needle : String) (j : JSON) : Except PyExc Bool :=
  match j with
  | .obj fields => .ok (containsField fields needle)
  | .arr items => .ok (items.any (fun x => jsonEqStr x needle))
  | .str s => .ok (subList needle.data s.data)
  | _ => .error .typeError

/-- Rendering used by f-string interpolation.  Exact for strings,
integers, booleans and `None`; the repr of containers is abbreviated
(no theorem depends on it). -/
def pyStr : JSON → String
  | .str s => s
  | .num n => toString n
  | .bool true => "True"
  | .bool false => "False"
  | .null => "None"
  | .arr _ => "[list]"
  | .obj _ => "[dict]"

/-- The `try:` body of `extract_whatsapp_message` (app.py lines 208-239),
translated statement by statement.  The Python function returns a pair
whose components may be `None`; `(.null, .null)` is the "no message"
outcome. -/
def whatsappTryBody (data : JSON) : Except PyExc (JSON × JSON) := do
  let entryVal ← pyGetAttr data "entry"
  if !truthy entryVal then
    return (.null, .null)
  else
    let entry ← pySubKey data "entry"
    let e0 ← pySub0 entry
    let changes ← pySubKey e0 "changes"
    let c0 ← pySub0 changes
    let value ← pySubKey c0 "value"
    let hasStatuses ← pyIn "statuses" value
    if hasStatuses then
      return (.null, .null)
    else
      let hasMessages ← pyIn "messages" value
      if hasMessages then
        let messages ← pySubKey value "messages"
        let message_obj ← pySub0 messages
        let from_id ← pyGetAttr message_obj "from"
        let msg_type ← pyGetAttr message_obj "type"
        if jsonEqStr msg_type "text" then
          let textObj ← pySubKey message_obj "text"
          let body ← pySubKey textObj "body"
          return (from_id, body)
        else
          -- elif msg_type == "image" and "caption" in message_obj.get("image", {})
          -- (the second conjunct is only evaluated when the first holds)
          let imageCond ←
            if jsonEqStr msg_type "image" then do
              let img ← pyGetAttrD message_obj "image" (.obj [])
              pyIn "caption" img
            else
              pure false
          if imageCond then
            let img2 ← pySubKey message_obj "image"
            let caption ← pySubKey img2 "caption"
            return (from_id, .str ("[IMAGEM] " ++ pyStr caption))
          else
            if jsonEqStr msg_type "audio" then
              return (from_id, .str "[ÁUDIO RECEBIDO]")
            else
              -- unsupported type: logged, falls through to `return None, None`
              return (.null, .null)
      else
        return (.null, .null)

/-- `except (KeyError, IndexError, TypeError)` — `AttributeError` is not
in the tuple and would propagate. -/
def caughtByExtractorClause : PyExc → Bool
  | .keyError => true
  | .indexError => true
  | .typeError => true
  | .attributeError => false

/-- `extract_whatsapp_message` (app.py): the try body with its except
clause; a caught exception is logged and the function falls through to
`return None, None`. -/
def extract_whatsapp_message (data : JSON) : Except PyExc (JSON × JSON) :=
  match whatsappTryBody data with
  | .ok r => .ok r
  | .error e => if caughtByExtractorClause e then .ok (.null, .null) else .error e

/-- Python `for event in x` iterates list elements, the characters of a
string, the keys of a dict, and raises `TypeError` otherwise. -/
def pyIterate (j : JSON) : Except PyExc (List JSON) :=
  match j with
  | .arr items => .ok items
  | .str s => .ok (s.data.map (fun c => .str (String.mk [c])))
  | .obj fields => .ok (fields.map (fun f => .str f.1))
  | _ => .error .typeError

/-- The `for event in messaging_events` loop of
`extract_messenger_message` (app.py lines 249-259). -/
def messengerLoop : List JSON → Except PyExc (JSON × JSON)
  | [] => .ok (.null, .null)
  | event :: rest => do
    let sender ← pyGetAttrD event "sender" (.obj [])
    let sender_id ← pyGetAttr sender "id"
    let hasMessage ← pyIn "message" event
    -- if "message" in event and "text" in event["message"]
    let cond1 ←
      if hasMessage then do
        let m ← pySubKey event "message"
        pyIn "text" m
      else
        pure false
    if cond1 then
      let m ← pySubKey event "message"
      let t ← pySubKey m "text"
      return (sender_id, t)
    else
      -- elif "message" in event and "quick_reply" in event["message"]
      let cond2 ←
        if hasMessage then do
          let m ← pySubKey event "message"
          pyIn "quick_reply" m
        else
          pure false
      if cond2 then
        let m ← pySubKey event "message"
        let qr ← pySubKey m "quick_reply"
        let payload ← pyGetAttrD qr "payload" (.str "")
        return (sender_id, payload)
      else
        -- elif "postback" in event
        let hasPostback ← pyIn "postback" event
        if hasPostback then
          let pb ← pySubKey event "postback"
          let payload ← pyGetAttrD pb "payload" (.str "")
          return (sender_id, payload)
        else
          messengerLoop rest

/-- The `try:` body of `extract_messenger_message` (app.py lines 241-264). -/
def messengerTryBody (data : JSON) : Except PyExc (JSON × JSON) := do
  let entryVal ← pyGetAttr data "entry"
  if !truthy entryVal then
    return (.null, .null)
  else
    let entry ← pySubKey data "entry"
    let e0 ← pySub0 entry
    let messaging_events ← pyGetAttrD e0 "messaging" (.arr [])
    let events ← pyIterate messaging_events
    messengerLoop events

/-- `extract_messenger_message` (app.py): try body plus the
`except (KeyError, IndexError, TypeError)` clause. -/
def extract_messenger_message (data : JSON) : Except PyExc (JSON × JSON) :=
  match messengerTryBody data with
  | .ok r => .ok r
  | .error e => if caughtByExtractorClause e then .ok (.null, .null) else .error e

/-- Characters stripped by Python `str.strip()` (ASCII whitespace; the
full Unicode set is not needed by any input considered here). -/
def pyWhitespace (c : Char) : Bool :=
  c == ' ' || c == '\t' || c == '\n' || c == '\x0d' || c == '\x0b' || c == '\x0c'

/-- Python `s.strip()`. -/
def pyStrip (s : String) : String :=
  String.mk (((s.data.dropWhile pyWhitespace).reverse.dropWhile pyWhitespace).reverse)

/-- Python slice `s[:n]` (first `n` code points). -/
def pyTake (s : String) (n : Nat) : String :=
  String.mk (s.data.take n)

/-- Python slice `s[n:]`. -/
def pyDrop (s : String) (n : Nat) : String :=
  String.mk (s.data.drop n)

/-- Python `len(s)` (code points). -/
def pyLen (s : String) : Nat :=
  s.data.length

/-- `verify_webhook_signature` (app.py lines 149-182).

* `hmacHex` stands for `hmac.new(secret.encode(), body, hashlib.sha256).hexdigest()`;
  no claim depends on the digest's value.
* `debug` is `app.debug`; with an unconfigured (empty) secret the function
  returns `True` in debug mode and `False` otherwise.
* The header is read with `request.headers.get('X-Hub-Signature-256', '')`.
* `hmac.compare_digest` is a constant-time equality of the two hex strings;
  its timing behaviour is not modelled, its value is plain equality.
* The `try/except` around the comparison cannot fire for string inputs,
  so the function is total and boolean-valued. -/
def verify_webhook_signature (hmacHex : String → List Nat → String)
    (debug : Bool) (secret : String) (header : Option String)
    (body : List Nat) : Bool :=
  if secret = "" then
    debug
  else
    let signature_header := header.getD ""
    if !(signature_header.startsWith "sha256=") then
      false
    else
      let received_signature := pyDrop signature_header 7
      let expected_signature := hmacHex secret body
      received_signature == expected_signature

/-- The `GET` branch of `handle_webhook` (app.py lines 365-376).
`args` is `request.args.get` (query parameters); `expected_token` is the
configured per-platform verification token (`os.getenv`, hence optional).
Result: response body (Flask may receive `None` when the challenge is
absent) and HTTP status. -/
def handle_webhook_get (args : String → Option String)
    (expected_token : Option String) : Option String × Nat :=
  let mode := args "hub.mode"
  let token := args "hub.verify_token"
  let challenge := args "hub.challenge"
  if mode == some "subscribe" && token == expected_token then
    (challenge, 200)
  else
    (some "Token inválido", 403)

/-- Query-parameter map with exactly the three `hub.*` parameters. -/
def hubArgs (mode token challenge : Option String) : String → Option String :=
  fun k =>
    if k = "hub.mode" then mode
    else if k = "hub.verify_token" then token
    else if k = "hub.challenge" then challenge
    else none

/-- Outcome of one `requests.post(...)` + `raise_for_status()` call made
by `MetaMessenger._send_whatsapp` / `_send_facebook`. -/
inductive HttpOutcome where
  | ok
  | connectionError
  | timeout
  | httpError (status : Nat)

/-- The `requests` exception raised by an unsuccessful attempt. -/
inductive ReqExcKind where
  | requestException
  | timeoutExc
  | httpErrorExc (status : Nat)

/-- Exception raised by an attempt, if any: a plain network failure
raises `RequestException`, a timeout raises `Timeout`, and
`raise_for_status()` raises `HTTPError` on a 4xx/5xx response. -/
def raiseOf : HttpOutcome → Option ReqExcKind
  | .ok => none
  | .connectionError => some .requestException
  | .timeout => some .timeoutExc
  | .httpError s => some (.httpErrorExc s)

/-- `requests.exceptions` class hierarchy: `Timeout` and `HTTPError` are
both subclasses of `RequestException`, so every failure here is an
instance of `RequestException`. -/
def isRequestException : ReqExcKind → Bool := fun _ => true

/-- Instance test for the `except HTTPError` clause. -/
def isHTTPError : ReqExcKind → Bool
  | .httpErrorExc _ => true
  | _ => false

/-- `MetaMessenger.send_message` (celery_worker.py lines 192-223),
including `_send_whatsapp` / `_send_facebook` (lines 225-267).

* `waConfigOk` / `fbConfigOk`: whether the respective credential pair is
  fully configured (`all(self.whatsapp_config.values())` etc.); an
  incomplete configuration returns `False` before any network call.
* `outcomes k` is the result of the `requests.post` made at recursion
  depth `retry_count = k`.
* The returned pair is (the boolean result, the list of message bodies
  actually handed to `requests.post`, in order).
* Except-clause order is significant: `except (RequestException, Timeout)`
  is tested first and, since `HTTPError` is a subclass of
  `RequestException`, it also catches HTTP-status failures; the later
  `except HTTPError` clause is unreachable. -/
def send_message (waConfigOk fbConfigOk : Bool) (outcomes : Nat → HttpOutcome)
    (platform to_id message : String) (retry_count : Nat) : Bool × List String :=
  -- if not all([platform, to_id, message]): return False
  if platform = "" || to_id = "" || message = "" then
    (false, [])
  else
    -- if len(message) > 4000: message = message[:3997] + "..."
    let message := if 4000 < pyLen message then pyTake message 3997 ++ "..." else message
    let configOk := if platform = "whatsapp" then waConfigOk else fbConfigOk
    if !configOk then
      (false, [])
    else
      match raiseOf (outcomes retry_count) with
      | none => (true, [message])
      | some e =>
        if isRequestException e then
          -- except (RequestException, Timeout): retry up to 3 times
          if h : retry_count < 3 then
            let r := send_message waConfigOk fbConfigOk outcomes platform to_id message (retry_count + 1)
            (r.1, message :: r.2)
          else
            (false, [message])
        else if isHTTPError e then
          -- except HTTPError: return False (dead code, see above)
          (false, [message])
        else
          (false, [message])
termination_by 4 - retry_count
decreasing_by omega

/-- Unicode simple lowercase for ASCII and Latin-1 letters (Python
`str.lower()`; characters outside this range are returned unchanged,
which is exact for every string the embedded code compares). -/
def pyCharLower (c : Char) : Char :=
  if 'A' ≤ c && c ≤ 'Z' then
    Char.ofNat (c.toNat + 32)
  else if 0xC0 ≤ c.toNat && c.toNat ≤ 0xDE && c.toNat != 0xD7 then
    Char.ofNat (c.toNat + 32)
  else
    c

/-- Python `s.lower()`. -/
def pyLower (s : String) : String :=
  String.mk (s.data.map pyCharLower)

/-- Python `word in message` (substring containment). -/
def strIn (word message : String) : Bool :=
  subList word.data message.data

/-- `_get_fallback_message` canned replies (celery_worker.py lines 416-446),
adjacent string literals concatenated as in the source. -/
def priceFallback : String :=
  "Desculpe, estou com dificuldade para acessar os preços no momento. " ++
  "Por favor, visite nosso site ou entre em contato pelo telefone " ++
  "(84) 3317-5000 para informações atualizadas sobre preços."

def hoursFallback : String :=
  "Nossa loja funciona de Segunda a Sexta das 8h às 18h, " ++
  "e aos Sábados das 8h às 13h. Estamos na Av. Presidente Dutra, 1655, Alto de São Manoel."

def productFallback : String :=
  "Para verificar disponibilidade de produtos, " ++
  "visite nosso site ou entre em contato pelo WhatsApp principal: (84) 99999-9999"

def genericFallback : String :=
  "Desculpe, estou temporariamente indisponível. " ++
  "Enquanto isso, você pode visitar nosso site para mais informações " ++
  "ou entrar em contato pelo telefone (84) 3317-5000. " ++
  "Um atendente humano responderá em breve!"

/-- `_get_fallback_message` (celery_worker.py lines 416-446); the source
name carries a leading underscore, dropped here because Lean reserves it. -/
def get_fallback_message (user_message : String) : String :=
  let message_lower := pyLower user_message
  if ["preço", "valor", "quanto"].any (fun w => strIn w message_lower) then
    priceFallback
  else if ["horário", "aberto", "funcionamento"].any (fun w => strIn w message_lower) then
    hoursFallback
  else if ["produto", "tem", "disponível"].any (fun w => strIn w message_lower) then
    productFallback
  else
    genericFallback

/-- `PromptBuilder.SYSTEM_PROMPT` up to its `{knowledge}` placeholder
(celery_worker.py lines 278-295). -/
def SYSTEM_PROMPT_before : String :=
  "\n    Você é a SofIA, assistente virtual da loja Dinâmica Sports em Mossoró/RN.\n    \n    PERSONALIDADE:\n    - Entusiasta e prestativa\n    - Focada em ajudar o cliente\n    - Direciona vendas para o site quando apropriado\n    \n    DIRETRIZES:\n    1. Use APENAS informações do conhecimento fornecido\n    2. Seja concisa (máximo 3 parágrafos)\n    3. Inclua links de compra quando relevante\n    4. Se não souber, admita e ofereça ajuda alternativa\n    5. Mantenha tom amigável e profissional\n    \n    CONHECIMENTO DA LOJA:\n    "

/-- `PromptBuilder.SYSTEM_PROMPT` after its `{knowledge}` placeholder. -/
def SYSTEM_PROMPT_after : String :=
  "\n    "

/-- Python `message.replace('\x00', '')`: removes every NUL character. -/
def removeNulChars (s : String) : String :=
  String.mk (s.data.filter (fun c => !(c == '\x00')))

/-- `PromptBuilder.build` (celery_worker.py lines 297-309).
`SYSTEM_PROMPT.format(knowledge=knowledge)` substitutes the template's
single `{knowledge}` placeholder; the template is the design constant
above and contains no other placeholder. -/
def PromptBuilder.build (message knowledge : String) : String :=
  let safe := pyTake (pyStrip (removeNulChars message)) 500
  let safe_message := if safe = "" then "Olá" else safe
  (SYSTEM_PROMPT_before ++ knowledge ++ SYSTEM_PROMPT_after) ++
    ("\n\nPERGUNTA DO CLIENTE: " ++ safe_message)

/-- The memoisation key of `GeminiClient.generate_cached_response`:
`functools.lru_cache` keys on the full argument tuple
`(self, prompt_hash, prompt)`; `self` is the process-wide singleton and
is omitted.  Crucially the key contains the full `prompt`, not only
`prompt_hash`. -/
abbrev CacheKey := String × String

/-- The `lru_cache` state: entries most-recently-used first. -/
abbrev Cache := List (CacheKey × String)

/-- Cache lookup (no recency update). -/
def cacheLookup (c : Cache) (k : CacheKey) : Option String :=
  (c.find? (fun e => e.1 == k)).map (fun e => e.2)

/-- On a hit, `lru_cache` moves the entry to most-recently-used position. -/
def lruTouch (c : Cache) (k : CacheKey) : Cache :=
  match c.find? (fun e => e.1 == k) with
  | some e => e :: c.eraseP (fun x => x.1 == k)
  | none => c

/-- On a miss, `lru_cache(maxsize=128)` stores the new result and, when
the capacity is exceeded, discards the least-recently-used entry. -/
def lruInsert (c : Cache) (k : CacheKey) (v : String) : Cache :=
  let c2 := (k, v) :: c
  if 128 < c2.length then c2.dropLast else c2

/-- Result of one call to `generate_cached_response`. -/
structure CacheCallOut where
  outcome : Except Unit String
  newCache : Cache
  generatorInvoked : Bool

/-- `GeminiClient.generate_cached_response` (celery_worker.py lines
101-120) under its `@lru_cache(maxsize=128)` decorator.  `genResult` is
what the wrapped body (`self.model.generate_content(prompt).text`, or the
re-raised exception) would produce if invoked on this call.  On a hit the
body is not invoked; on a miss it is invoked once, and `lru_cache` stores
the result only when the body returns normally (an exception is not
cached). -/
def generate_cached_response (c : Cache) (k : CacheKey)
    (genResult : Except Unit String) : CacheCallOut :=
  match cacheLookup c k with
  | some v => { outcome := .ok v, newCache := lruTouch c k, generatorInvoked := false }
  | none =>
    match genResult with
    | .ok v => { outcome := .ok v, newCache := lruInsert c k v, generatorInvoked := true }
    | .error e => { outcome := .error e, newCache := c, generatorInvoked := true }

/-- Exceptions flowing through `process_ai_response`'s outer
`try/except`.  Per the `celery.exceptions` class hierarchy,
`Retry` derives from `TaskPredicate`, which derives from `CeleryError`,
which derives from `Exception`; `MaxRetriesExceededError` also derives
from `Exception`. -/
inductive TaskExc where
  | retryExc
  | maxRetriesExceededExc
deriving DecidableEq

/-- `celery.app.task.Task.retry()`: raises `Retry` when one more retry is
allowed (`request.retries + 1 <= max_retries`) and
`MaxRetriesExceededError` otherwise. -/
def self_retry (retries max_retries : Nat) : TaskExc :=
  if max_retries < retries + 1 then .maxRetriesExceededExc else .retryExc

/-- `except MaxRetriesExceededError` instance test. -/
def excIsMaxRetriesExceeded : TaskExc → Bool
  | .maxRetriesExceededExc => true
  | .retryExc => false

/-- `except Exception` instance test: every `TaskExc` is an `Exception`
subclass (see `TaskExc`), so this clause catches `Retry` as well. -/
def excIsException : TaskExc → Bool := fun _ => true

/-- Outcome of the outer `try:` body of `process_ai_response`
(celery_worker.py lines 355-396): either it runs to completion
(`flow = none`, reaching `result['success'] = True`) or an exception
escapes it (`flow = some e`). -/
structure TryBodyOut where
  flow : Option TaskExc
  ai_response : Option String
  sends : List String
  generatorInvoked : Bool
  newCache : Cache

/-- Step 3 of the task (celery_worker.py lines 379-396): deliver
`ai_reply`, and on failure call `self.retry()` only when retries remain;
with `retries = max_retries` the code falls through to
`result['success'] = True`. -/
def task_deliver (retries max_retries : Nat) (sendOk : Bool)
    (preview : Option String) (ai_reply : String)
    (genInv : Bool) (c : Cache) : TryBodyOut :=
  if sendOk then
    { flow := none, ai_response := preview, sends := [ai_reply],
      generatorInvoked := genInv, newCache := c }
  else if retries < max_retries then
    -- raise self.retry()
    { flow := some (self_retry retries max_retries), ai_response := preview,
      sends := [ai_reply], generatorInvoked := genInv, newCache := c }
  else
    { flow := none, ai_response := preview, sends := [ai_reply],
      generatorInvoked := genInv, newCache := c }

/-- The outer `try:` body of `process_ai_response` (celery_worker.py
lines 355-396).  `retries` is `self.request.retries` (0 on the first
execution), `max_retries` is the decorator's `max_retries=3`,
`genResult` is what the Gemini call would produce if invoked, and
`sendOk` is the boolean returned by `meta_messenger.send_message`. -/
def task_try_body (retries max_retries : Nat) (message knowledge : String)
    (md5 : String → String) (cache : Cache)
    (genResult : Except Unit String) (sendOk : Bool) : TryBodyOut :=
  let prompt := PromptBuilder.build message knowledge
  let prompt_hash := md5 prompt
  let cr := generate_cached_response cache (prompt_hash, prompt) genResult
  match cr.outcome with
  | .ok ai_reply =>
    task_deliver retries max_retries sendOk (some (pyTake ai_reply 500))
      ai_reply cr.generatorInvoked cr.newCache
  | .error _ =>
    if retries < max_retries then
      -- raise self.retry(exc=e): the Retry raised inside the inner except
      -- handler propagates into the outer try/except
      { flow := some (self_retry retries max_retries), ai_response := none,
        sends := [], generatorInvoked := cr.generatorInvoked, newCache := cr.newCache }
    else
      task_deliver retries max_retries sendOk none
        (get_fallback_message message) cr.generatorInvoked cr.newCache

/-- The canned "technical difficulties, human will follow up" message of
the `except MaxRetriesExceededError` handler (celery_worker.py lines
403-407), adjacent literals concatenated as in the source. -/
def error_msg : String :=
  "Desculpe, estou com dificuldades técnicas no momento. " ++
  "Um atendente humano entrará em contato em breve para ajudá-lo. " ++
  "Obrigado pela compreensão!"

/-- What `result['error']` holds at the end of a task execution. -/
inductive RecordedError where
  | max_retries_exceeded
  | strOfExc (e : TaskExc)
deriving DecidableEq

/-- One complete execution of the celery task `process_ai_response`
(celery_worker.py lines 320-414): `success`/`errorRecorded`/`ai_response`
are the fields of the returned `result` dict (platform, sender id and
timestamps are pass-through data no claim depends on); `sends` lists the
message arguments of every `meta_messenger.send_message` call made;
`raisedToCelery` is the exception, if any, escaping the task function
(only such an exception can make the celery worker schedule a retry). -/
structure TaskRun where
  success : Bool
  errorRecorded : Option RecordedError
  ai_response : Option String
  sends : List String
  generatorInvoked : Bool
  newCache : Cache
  raisedToCelery : Option TaskExc

/-- `process_ai_response`: the try body plus its two except clauses, in
source order (`except MaxRetriesExceededError`, then `except Exception`).
The result of the best-effort `send_message(error_msg)` in the first
handler is ignored by the source. -/
def process_ai_response (retries max_retries : Nat) (message knowledge : String)
    (md5 : String → String) (cache : Cache)
    (genResult : Except Unit String) (sendOk : Bool) : TaskRun :=
  let b := task_try_body retries max_retries message knowledge md5 cache genResult sendOk
  match b.flow with
  | none =>
    { success := true, errorRecorded := none, ai_response := b.ai_response,
      sends := b.sends, generatorInvoked := b.generatorInvoked,
      newCache := b.newCache, raisedToCelery := none }
  | some e =>
    if excIsMaxRetriesExceeded e then
      { success := false, errorRecorded := some .max_retries_exceeded,
        ai_response := b.ai_response, sends := b.sends ++ [error_msg],
        generatorInvoked := b.generatorInvoked, newCache := b.newCache,
        raisedToCelery := none }
    else if excIsException e then
      -- `except Exception as e: result['error'] = str(e)` — this clause
      -- also catches the Retry raised by self.retry(), so the retry
      -- signal never reaches the worker
      { success := false, errorRecorded := some (.strOfExc e),
        ai_response := b.ai_response, sends := b.sends,
        generatorInvoked := b.generatorInvoked, newCache := b.newCache,
        raisedToCelery := none }
    else
      { success := false, errorRecorded := none, ai_response := b.ai_response,
        sends := b.sends, generatorInvoked := b.generatorInvoked,
        newCache := b.newCache, raisedToCelery := some e }

/-- The queue's view of a task: the celery worker re-executes a task
(with `request.retries` incremented) exactly when the `Retry` exception
escapes the task function; any normal return completes the task
(`task_acks_late` acknowledges it).  The worker cache persists across
executions of the same worker process.  `fuel` bounds the unfolding and
is chosen larger than any possible retry chain. -/
def celery_trace (fuel retries max_retries : Nat) (message knowledge : String)
    (md5 : String → String) (cache : Cache)
    (genResult : Except Unit String) (sendOk : Bool) : List TaskRun :=
  match fuel with
  | 0 => []
  | fuel' + 1 =>
    let r := process_ai_response retries max_retries message knowledge md5 cache genResult sendOk
    match r.raisedToCelery with
    | some .retryExc =>
      r :: celery_trace fuel' (retries + 1) max_retries message knowledge md5
        r.newCache genResult sendOk
    | _ => [r]

/-- Total number of Gemini-generator invocations along a trace. -/
def traceGenCalls (t : List TaskRun) : Nat :=
  (t.map (fun r => if r.generatorInvoked then 1 else 0)).sum

/-- All messages handed to the delivery client along a trace. -/
def traceSends (t : List TaskRun) : List String :=
  (t.map TaskRun.sends).flatten

/-- Every cached value was produced by the generator from the prompt
stored in its own key (second key component): `g` is the external model
viewed as a function of the prompt. -/
def CacheConsistent (g : String → String) (c : Cache) : Prop :=
  ∀ e ∈ c, e.2 = g e.1.2

/-- A WhatsApp payload whose `entry[0].changes[0].value` is `value`. -/
def whatsappEnvelope (value : JSON) : JSON :=
  JSON.obj [("entry", JSON.arr [JSON.obj [("changes", JSON.arr [JSON.obj [("value", value)]])]])]

/-- The message body that actually reaches `requests.post` for an input
message `m` (celery_worker.py lines 206-208). -/
def truncOf (m : String) : String :=
  if 4000 < pyLen m then pyTake m 3997 ++ "..." else m

/-! Helper lemmas (shared; none of these is a claim's theorem). -/

theorem except_bind_ok {α β ε : Type} (a : α) (f : α → Except ε β) :
    (Except.ok a : Except ε α) >>= f = f a := rfl

theorem except_bind_error {α β ε : Type} (e : ε) (f : α → Except ε β) :
    (Except.error e : Except ε α) >>= f = Except.error e := rfl

theorem except_pure {α ε : Type} (a : α) : (pure a : Except ε α) = Except.ok a := rfl

/-! Claims. -/

/-- Claim C6, counterexample: a well-formed JSON payload whose top level
is an array has no `messages`/`messaging` array, yet both extractors
raise `AttributeError` (`data.get` on a list) instead of returning the
"no message" outcome — the except clause lists only
`KeyError, IndexError, TypeError`. -/
theorem c6_counterexample :
    extract_whatsapp_message (JSON.arr [JSON.num 1]) = .error .attributeError
    ∧ extract_messenger_message (JSON.arr [JSON.num 1]) = .error .attributeError :=
  ⟨rfl, rfl⟩

/-- Claim C6 (amended): for every JSON **object** payload in the listed
shape families — absent `entry`, falsy `entry`, absent `changes`, empty
`changes`, absent `messaging`, empty `messaging`, a WhatsApp `statuses`
event, and a WhatsApp `value` without `messages` — extraction returns the
"no message" pair `(None, None)` without raising; payloads whose
traversed nodes are not JSON objects can instead raise `AttributeError`
(see the counterexample). -/
theorem c6_extraction_amended :
    (∀ fields, lookupField fields "entry" = none →
      extract_whatsapp_message (JSON.obj fields) = .ok (.null, .null)
      ∧ extract_messenger_message (JSON.obj fields) = .ok (.null, .null))
    ∧ (∀ fields v, lookupField fields "entry" = some v → truthy v = false →
      extract_whatsapp_message (JSON.obj fields) = .ok (.null, .null)
      ∧ extract_messenger_message (JSON.obj fields) = .ok (.null, .null))
    ∧ (∀ efields rest, lookupField efields "changes" = none →
      extract_whatsapp_message (JSON.obj [("entry", JSON.arr (JSON.obj efields :: rest))])
        = .ok (.null, .null))
    ∧ (∀ rest, extract_whatsapp_message
        (JSON.obj [("entry", JSON.arr (JSON.obj [("changes", JSON.arr [])] :: rest))])
        = .ok (.null, .null))
    ∧ (∀ efields rest, lookupField efields "messaging" = none →
      extract_messenger_message (JSON.obj [("entry", JSON.arr (JSON.obj efields :: rest))])
        = .ok (.null, .null))
    ∧ (∀ rest, extract_messenger_message
        (JSON.obj [("entry", JSON.arr (JSON.obj [("messaging", JSON.arr [])] :: rest))])
        = .ok (.null, .null))
    ∧ (∀ vfields, containsField vfields "statuses" = true →
      extract_whatsapp_message (whatsappEnvelope (JSON.obj vfields)) = .ok (.null, .null))
    ∧ (∀ vfields, containsField vfields "statuses" = false →
        containsField vfields "messages" = false →
      extract_whatsapp_message (whatsappEnvelope (JSON.obj vfields)) = .ok (.null, .null)) := by
  refine ⟨?_, ?_, ?_, ?_, ?_, ?_, ?_, ?_⟩
  · intro fields h
    constructor <;>
      simp [extract_whatsapp_message, whatsappTryBody, extract_messenger_message,
        messengerTryBody, pyGetAttr, h, truthy, except_bind_ok, except_bind_error, except_pure]
  · intro fields v h hv
    constructor <;>
      simp [extract_whatsapp_message, whatsappTryBody, extract_messenger_message,
        messengerTryBody, pyGetAttr, h, hv, except_bind_ok, except_bind_error, except_pure]
  · intro efields rest h
    simp [extract_whatsapp_message, whatsappTryBody, pyGetAttr, pySubKey, pySub0, h,
      truthy, lookupField, caughtByExtractorClause, except_bind_ok, except_bind_error, except_pure]
  · intro rest
    rfl
  · intro efields rest h
    simp [extract_messenger_message, messengerTryBody, pyGetAttr, pyGetAttrD, pySubKey, pySub0,
      h, truthy, lookupField, pyIterate, messengerLoop, except_bind_ok, except_bind_error,
      except_pure]
  · intro rest
    rfl
  · intro vfields h
    simp [extract_whatsapp_message, whatsappTryBody, whatsappEnvelope, pyGetAttr, pySubKey,
      pySub0, pyIn, h, truthy, lookupField, except_bind_ok, except_bind_error, except_pure]
  · intro vfields h1 h2
    simp [extract_whatsapp_message, whatsappTryBody, whatsappEnvelope, pyGetAttr, pySubKey,
      pySub0, pyIn, h1, h2, truthy, lookupField, except_bind_ok, except_bind_error, except_pure]

/-- Claim C6, witness: the amended theorem applied to the empty object
payload and to a concrete `statuses` event. -/
theorem c6_extraction_witness :
    extract_whatsapp_message (JSON.obj []) = .ok (.null, .null)
    ∧ extract_messenger_message (JSON.obj []) = .ok (.null, .null)
    ∧ extract_whatsapp_message (whatsappEnvelope (JSON.obj [("statuses", JSON.arr [])]))
        = .ok (.null, .null) :=
  ⟨(c6_extraction_amended.1 [] rfl).1, (c6_extraction_amended.1 [] rfl).2,
    c6_extraction_amended.2.2.2.2.2.2.1 [("statuses", JSON.arr [])] rfl⟩

/-- Claim C7, counterexample: with an empty (unconfigured) secret in
debug mode, `verify_webhook_signature` returns `True` even though the
signature header is missing — so "returns false whenever the header is
missing" does not hold for every secret. -/
theorem c7_counterexample :
    verify_webhook_signature (fun _ _ => "") true "" none [] = true := rfl

/-- Claim C7 (amended): whenever the secret is nonempty or the app is not
in debug mode, verification returns `false` if the signature header is
missing or does not start with `sha256=`; the function is total and
boolean-valued (the empty-secret debug bypass returns `true` regardless
of the header). -/
theorem c7_verify_amended (hmacHex : String → List Nat → String) (debug : Bool)
    (secret : String) (header : Option String) (body : List Nat)
    (hsec : secret = "" → debug = false)
    (hhdr : ((header.getD "").startsWith "sha256=") = false) :
    verify_webhook_signature hmacHex debug secret header body = false := by
  unfold verify_webhook_signature
  by_cases hs : secret = ""
  · simp [hs, hsec hs]
  · simp [hs, hhdr]

/-- Claim C7, witness: a nonempty secret and a missing header. -/
theorem c7_verify_witness :
    verify_webhook_signature (fun _ _ => "digest") false "topsecret" none [] = false :=
  c7_verify_amended (fun _ _ => "digest") false "topsecret" none []
    (fun _ => rfl) (by decide)

/-- Claim C8: the GET verification branch of `handle_webhook` echoes
`hub.challenge` with HTTP 200 exactly when `hub.mode` is `subscribe` and
`hub.verify_token` equals the configured token, and answers
`("Token inválido", 403)` in every other case. -/
theorem c8_get_verification (mode token challenge : Option String) (expected : String) :
    (((handle_webhook_get (hubArgs mode token challenge) (some expected)).2 = 200
        ∧ (handle_webhook_get (hubArgs mode token challenge) (some expected)).1 = challenge)
      ↔ (mode = some "subscribe" ∧ token = some expected))
    ∧ (¬(mode = some "subscribe" ∧ token = some expected) →
        handle_webhook_get (hubArgs mode token challenge) (some expected)
          = (some "Token inválido", 403)) := by
  unfold handle_webhook_get hubArgs
  by_cases h1 : mode = some "subscribe" <;> by_cases h2 : token = some expected <;>
    simp [h1, h2]

/-- Claim C8, witness: the spec's scenario — `hub.mode=subscribe`, a
matching token, `hub.challenge=1158201444` — yields status 200 with the
challenge echoed. -/
theorem c8_get_verification_witness :
    (handle_webhook_get (hubArgs (some "subscribe") (some "tok123") (some "1158201444"))
      (some "tok123")).2 = 200
    ∧ (handle_webhook_get (hubArgs (some "subscribe") (some "tok123") (some "1158201444"))
      (some "tok123")).1 = some "1158201444" :=
  (c8_get_verification (some "subscribe") (some "tok123") (some "1158201444") "tok123").1.mpr
    ⟨rfl, rfl⟩

theorem cacheLookup_eq_some {c : Cache} {k : CacheKey} {v : String}
    (h : cacheLookup c k = some v) : ∃ e ∈ c, e.1 = k ∧ e.2 = v := by
  unfold cacheLookup at h
  cases hf : c.find? (fun e => e.1 == k) with
  | none => rw [hf] at h; simp at h
  | some e =>
    rw [hf] at h
    simp at h
    have hp := List.find?_some hf
    simp at hp
    exact ⟨e, List.mem_of_find?_eq_some hf, hp, h⟩

theorem cacheConsistent_touch (g : String → String) (c : Cache) (k : CacheKey)
    (hc : CacheConsistent g c) : CacheConsistent g (lruTouch c k) := by
  intro e he
  unfold lruTouch at he
  cases hf : c.find? (fun x => x.1 == k) with
  | none => rw [hf] at he; exact hc e he
  | some e0 =>
    rw [hf] at he
    rcases List.mem_cons.mp he with rfl | hmem
    · exact hc _ (List.mem_of_find?_eq_some hf)
    · exact hc _ ((List.eraseP_sublist _).mem hmem)

theorem cacheConsistent_insert (g : String → String) (c : Cache) (hsh p : String)
    (hc : CacheConsistent g c) : CacheConsistent g (lruInsert c (hsh, p) (g p)) := by
  intro e he
  unfold lruInsert at he
  have hmem : e ∈ ((hsh, p), g p) :: c := by
    by_cases hlen : 128 < (((hsh, p), g p) :: c).length
    · rw [if_pos hlen] at he
      exact (List.dropLast_sublist _).mem he
    · rw [if_neg hlen] at he
      exact he
  rcases List.mem_cons.mp hmem with rfl | hmem2
  · rfl
  · exact hc _ hmem2

/-- Claim C5: starting from any full cache (128 entries) that misses the
key, a call invokes the generator once, returns and stores its result,
and evicts exactly the least-recently-used entry; an immediately
following call with the same key returns the identical reply without
invoking the generator, whatever the generator would now produce. -/
theorem c5_cache_memoization (c : Cache) (k : CacheKey) (v : String)
    (r2 : Except Unit String)
    (h1 : cacheLookup c k = none) (h2 : c.length = 128) :
    (generate_cached_response c k (.ok v)).generatorInvoked = true
    ∧ (generate_cached_response c k (.ok v)).outcome = .ok v
    ∧ (generate_cached_response c k (.ok v)).newCache = (k, v) :: c.dropLast
    ∧ (generate_cached_response (generate_cached_response c k (.ok v)).newCache k r2).outcome
        = .ok v
    ∧ (generate_cached_response (generate_cached_response c k (.ok v)).newCache k
        r2).generatorInvoked = false := by
  have hins : lruInsert c k v = (k, v) :: c.dropLast := by
    unfold lruInsert
    cases c with
    | nil => simp at h2
    | cons x xs => simp [h2, List.dropLast]
  have hlook : cacheLookup ((k, v) :: c.dropLast) k = some v := by
    simp [cacheLookup, List.find?]
  refine ⟨?_, ?_, ?_, ?_, ?_⟩ <;>
    simp [generate_cached_response, h1, hins, hlook]

set_option maxRecDepth 4000 in
/-- Claim C5, witness: a concrete full cache of 128 entries missing the
key; the first call invokes the generator. -/
theorem c5_cache_memoization_witness :
    cacheLookup (List.replicate 128 ((("a", "a"), "x"))) ("h", "p") = none
    ∧ (List.replicate 128 ((("a", "a"), "x")) : Cache).length = 128
    ∧ (generate_cached_response (List.replicate 128 ((("a", "a"), "x"))) ("h", "p")
        (.ok "resp")).generatorInvoked = true :=
  ⟨by decide, by decide,
    (c5_cache_memoization (List.replicate 128 ((("a", "a"), "x"))) ("h", "p") "resp"
      (.error ()) (by decide) (by decide)).1⟩

/-- Claim C10: if every cached value was generated from the full prompt
stored in its own key, then a call with any `(hash, prompt)` key —
including one whose hash component collides with a different prompt's
hash — returns exactly the generator's reply for that prompt, and the
property is preserved; the memoization key contains the full prompt
text, so cache correctness never depends on injectivity of the hash. -/
theorem c10_no_cross_contamination (g : String → String) (c : Cache) (hsh p : String)
    (hc : CacheConsistent g c) :
    (generate_cached_response c (hsh, p) (.ok (g p))).outcome = .ok (g p)
    ∧ CacheConsistent g (generate_cached_response c (hsh, p) (.ok (g p))).newCache := by
  unfold generate_cached_response
  cases hfind : cacheLookup c (hsh, p) with
  | none =>
    exact ⟨rfl, cacheConsistent_insert g c hsh p hc⟩
  | some v =>
    obtain ⟨e, hmem, hk, hv⟩ := cacheLookup_eq_some hfind
    have hveq : v = g p := by rw [← hv, hc e hmem, hk]
    subst hveq
    exact ⟨rfl, cacheConsistent_touch g c (hsh, p) hc⟩

/-- Claim C10, witness: the cache holds prompt `p1`'s reply under hash
`"H"`; a request for the distinct prompt `p2` with the SAME (colliding)
hash `"H"` still returns `p2`'s own reply, never `p1`'s. -/
theorem c10_no_cross_contamination_witness :
    (generate_cached_response [(("H", "p1"), "p1!")] ("H", "p2")
      (.ok ((fun s => s ++ "!") "p2"))).outcome = .ok ((fun s => s ++ "!") "p2") :=
  (c10_no_cross_contamination (fun s => s ++ "!") [(("H", "p1"), "p1!")] "H" "p2"
    (by intro e he; rw [List.mem_singleton] at he; subst he; rfl)).1

theorem pyLen_truncated (m : String) (h : 4000 < pyLen m) :
    pyLen (pyTake m 3997 ++ "...") = 4000 := by
  simp [pyLen, pyTake] at h ⊢
  omega

theorem send_message_posts (w f : Bool) (oc : Nat → HttpOutcome) (p t : String)
    (m : String) (rc : Nat) :
    (send_message w f oc p t m rc).2.all (fun s => s == truncOf m) = true := by
  induction m, rc using send_message.induct w f oc p t with
  | case1 m rc h =>
    rw [send_message.eq_def]
    simp_all [truncOf]
  | case2 m rc h cfg h2 =>
    rw [send_message.eq_def]
    by_cases hw : p = "whatsapp" <;> simp_all [truncOf, cfg]
  | case3 m rc h cfg h2 hout =>
    rw [send_message.eq_def]
    by_cases hw : p = "whatsapp" <;> simp_all [truncOf, cfg]
  | case4 m rc h m1 cfg h2 e hout hreq hlt ih =>
    rw [send_message.eq_def]
    by_cases hw : p = "whatsapp" <;> by_cases hm : 4000 < pyLen m <;>
      simp_all [truncOf, cfg, m1, pyLen_truncated] <;>
      intro x hx <;>
      first
        | exact ih x hx
        | (rw [show (if 4000 < pyLen m then pyTake m 3997 ++ "..." else m) = m from
              if_neg (by omega)] at hx ⊢
           exact ih x hx)
  | case5 m rc h cfg h2 e hout hreq hge =>
    rw [send_message.eq_def]
    by_cases hw : p = "whatsapp" <;>
      simp_all [truncOf, cfg] <;>
      (rw [if_neg (show ¬ rc < 3 by omega)]
       simp)
  | case6 m rc h cfg h2 e hout hreq hhttp =>
    rw [send_message.eq_def]
    by_cases hw : p = "whatsapp" <;> simp_all [truncOf, cfg]
  | case7 m rc h cfg h2 e hout hreq hhttp =>
    rw [send_message.eq_def]
    by_cases hw : p = "whatsapp" <;> simp_all [truncOf, cfg]

theorem send_message_posts_nonempty (w f : Bool) (oc : Nat → HttpOutcome) (p t m : String)
    (rc : Nat) (hm : m ≠ "") (hp : p ≠ "") (ht : t ≠ "")
    (hcfg : (if p = "whatsapp" then w else f) = true) :
    (send_message w f oc p t m rc).2 ≠ [] := by
  rw [send_message.eq_def]
  by_cases hw : p = "whatsapp" <;>
    simp_all <;>
    (cases hro : raiseOf (oc rc) <;> simp_all) <;>
    (by_cases hr : rc < 3 <;> simp [hr, isRequestException])

/-- Claim C2: with the endpoint answering HTTP 401 on every attempt, a
fully configured `send_message("whatsapp", "user1", "oi")` makes FOUR
HTTP calls before returning `False` — not one call with zero retries —
because `HTTPError` is a subclass of `RequestException` and is therefore
caught by the earlier `except (RequestException, Timeout)` retry clause;
the dedicated `except HTTPError` clause is dead code. -/
theorem c2_http_error_retried :
    send_message true true (fun _ => .httpError 401) "whatsapp" "user1" "oi" 0
      = (false, ["oi", "oi", "oi", "oi"]) := by
  simp [send_message, pyLen, pyTake, raiseOf, isRequestException]

/-- Claim C9, counterexample: the empty message has at most 4000
characters, yet it is not "sent unchanged" — input validation rejects it
and no network call is made at all. -/
theorem c9_counterexample :
    send_message true true (fun _ => .ok) "whatsapp" "u" "" 0 = (false, [])
    ∧ pyLen "" ≤ 4000 :=
  ⟨by rw [send_message.eq_def]; simp, by decide⟩

/-- Claim C9 (amended): every message body actually handed to
`requests.post` is the input unchanged when it has at most 4000
characters, and otherwise the input truncated — before the network call —
to exactly 4000 characters ending in the `"..."` ellipsis marker; a
nonempty message with nonempty platform and recipient and a complete
configuration results in at least one network call.  (Empty messages are
rejected by validation with no call, hence the amendment.) -/
theorem c9_truncation_amended (w f : Bool) (oc : Nat → HttpOutcome)
    (p t m : String) (rc : Nat) :
    (¬ 4000 < pyLen m →
      (send_message w f oc p t m rc).2.all (fun s => s == m) = true)
    ∧ (4000 < pyLen m →
      (send_message w f oc p t m rc).2.all (fun s => s == pyTake m 3997 ++ "...") = true
      ∧ pyLen (pyTake m 3997 ++ "...") = 4000)
    ∧ (m ≠ "" → p ≠ "" → t ≠ "" → (if p = "whatsapp" then w else f) = true →
      (send_message w f oc p t m rc).2 ≠ []) := by
  refine ⟨?_, ?_, ?_⟩
  · intro hm
    have hall := send_message_posts w f oc p t m rc
    rwa [truncOf, if_neg hm] at hall
  · intro hm
    have hall := send_message_posts w f oc p t m rc
    rw [truncOf, if_pos hm] at hall
    exact ⟨hall, pyLen_truncated m hm⟩
  · exact send_message_posts_nonempty w f oc p t m rc

/-- Claim C9, witness: a 4001-character message is posted as exactly the
4000-character truncation ending in the ellipsis marker. -/
theorem c9_truncation_witness :
    (send_message true true (fun _ => .ok) "whatsapp" "u"
        (String.mk (List.replicate 4001 'a')) 0).2.all
      (fun s => s == pyTake (String.mk (List.replicate 4001 'a')) 3997 ++ "...") = true
    ∧ pyLen (pyTake (String.mk (List.replicate 4001 'a')) 3997 ++ "...") = 4000 :=
  (c9_truncation_amended true true (fun _ => .ok) "whatsapp" "u"
    (String.mk (List.replicate 4001 'a')) 0).2.1
    (by
      have h : pyLen (String.mk (List.replicate 4001 'a'))
          = (List.replicate 4001 'a').length := rfl
      rw [List.length_replicate] at h
      omega)

/-- Claim C1: at `retries = max_retries = 3`, a successful generation
followed by a FAILED delivery makes the task fall through the
`retries < max_retries` guard, record `success = True`, send no
"technical difficulties" fallback (its only send is the failed main
delivery), and raise nothing: the `except MaxRetriesExceededError`
handler holding the canned message never runs, because `self.retry()` is
only invoked while retries remain, and then it raises `Retry`, not
`MaxRetriesExceededError`. -/
theorem c1_delivery_failure_at_max :
    (process_ai_response 3 3 "Oi" "kb" (fun _ => "h") [] (.ok "Resposta da IA") false).success
      = true
    ∧ (process_ai_response 3 3 "Oi" "kb" (fun _ => "h") [] (.ok "Resposta da IA") false).sends
      = ["Resposta da IA"]
    ∧ (process_ai_response 3 3 "Oi" "kb" (fun _ => "h") [] (.ok "Resposta da IA")
        false).raisedToCelery = none
    ∧ (process_ai_response 3 3 "Oi" "kb" (fun _ => "h") [] (.ok "Resposta da IA")
        false).errorRecorded = none := by
  decide

/-- Claim C3, counterexample: with a generator that fails on every
invocation, the queue-level trace contains exactly ONE execution: the
`Retry` raised by `self.retry(exc=e)` is caught by the task's own
`except Exception` clause, so the task returns normally after a single
generator failure — the generator is called once in total (not 3 times),
no keyword fallback is ever delivered, and the task records an error. -/
theorem c3_counterexample :
    (celery_trace 10 0 3 "qual o preço?" "kb" (fun _ => "h") [] (.error ()) true).length = 1
    ∧ traceGenCalls (celery_trace 10 0 3 "qual o preço?" "kb" (fun _ => "h") [] (.error ()) true)
      = 1
    ∧ traceSends (celery_trace 10 0 3 "qual o preço?" "kb" (fun _ => "h") [] (.error ()) true)
      = []
    ∧ (celery_trace 10 0 3 "qual o preço?" "kb" (fun _ => "h") [] (.error ()) true).map
        TaskRun.success = [false] := by
  decide

/-- Claim C3 (amended): for every task whose prompt is not already
cached and whose generator fails, the FIRST execution already terminates
normally — nothing escapes to the celery worker, so no retry is ever
scheduled — with `success = False`, the swallowed `Retry` recorded as
`result['error']`, exactly one generator invocation and no message sent;
consequently the canned keyword fallback is unreachable. -/
theorem c3_single_failure_terminates (message knowledge : String)
    (md5 : String → String) (cache : Cache) (sendOk : Bool)
    (h : cacheLookup cache
      (md5 (PromptBuilder.build message knowledge), PromptBuilder.build message knowledge)
      = none) :
    (process_ai_response 0 3 message knowledge md5 cache (.error ()) sendOk).success = false
    ∧ (process_ai_response 0 3 message knowledge md5 cache (.error ()) sendOk).errorRecorded
      = some (.strOfExc .retryExc)
    ∧ (process_ai_response 0 3 message knowledge md5 cache (.error ()) sendOk).sends = []
    ∧ (process_ai_response 0 3 message knowledge md5 cache (.error ()) sendOk).generatorInvoked
      = true
    ∧ (process_ai_response 0 3 message knowledge md5 cache (.error ()) sendOk).raisedToCelery
      = none := by
  refine ⟨?_, ?_, ?_, ?_, ?_⟩ <;>
    simp [process_ai_response, task_try_body, generate_cached_response, h, self_retry,
      excIsMaxRetriesExceeded, excIsException]

/-- Claim C3, witness: the amended theorem at a concrete first
execution with an empty cache. -/
theorem c3_single_failure_witness :
    (process_ai_response 0 3 "Oi" "kb" (fun _ => "h") [] (.error ()) true).sends = []
    ∧ (process_ai_response 0 3 "Oi" "kb" (fun _ => "h") [] (.error ()) true).raisedToCelery
      = none :=
  ⟨(c3_single_failure_terminates "Oi" "kb" (fun _ => "h") [] true rfl).2.2.1,
    (c3_single_failure_terminates "Oi" "kb" (fun _ => "h") [] true rfl).2.2.2.2⟩

/-- Claim C4: when generation succeeds and delivery fails on the first
execution (`retries = 0 < max`), the task makes exactly one delivery
attempt and then terminates normally with an error result — the `Retry`
raised by `self.retry()` is caught by the task's own `except Exception`
clause, so the task is never re-invoked and no delivery re-attempt (with
or without a duplicate AI call) ever happens. -/
theorem c4_delivery_retry_swallowed :
    (process_ai_response 0 3 "Olá" "kb" (fun _ => "h") [] (.ok "R") false).success = false
    ∧ (process_ai_response 0 3 "Olá" "kb" (fun _ => "h") [] (.ok "R") false).sends = ["R"]
    ∧ (process_ai_response 0 3 "Olá" "kb" (fun _ => "h") [] (.ok "R") false).errorRecorded
      = some (.strOfExc .retryExc)
    ∧ (process_ai_response 0 3 "Olá" "kb" (fun _ => "h") [] (.ok "R") false).raisedToCelery
      = none := by
  decide
